import Mathlib

/-!
Verification of the employee-records CRUD service.

The definitions below are a shallow embedding of the repository:
`employee.py` (the Pydantic schema with its employee-number validator),
`employeeDB.py` (the `employees` table with unique constraints on
`email` and `employee_number` and an integer primary key), and
`main.py` (the FastAPI handlers `employee_create`, `employee_update`,
`employee_delete` and the by-id `employee_details`).

The database is modelled as a list of rows plus a primary-key counter.
Each handler takes the current database and returns the HTTP outcome
(`Except HTTPError α`) together with the database after the request,
so that rollback and frame properties can be stated directly.
-/

namespace EmployeeService

/-- The Pydantic `Employee` schema of `employee.py`: the seven input
fields, with `employee_number` an integer. -/
structure Employee where
  first_name : String
  last_name : String
  email : String
  title : String
  role : String
  employee_number : Int
  organisation : String
  deriving DecidableEq

/-- An unvalidated input record, before the `employee_number`
field validator of `employee.py` has run. -/
structure RawEmployee where
  first_name : String
  last_name : String
  email : String
  title : String
  role : String
  employee_number : Int
  organisation : String
  deriving DecidableEq

/-- `Employee.validate_employee_number` from `employee.py`:
rejects `v <= 0` with one message, then values outside `[1000, 9999]`
with another, and otherwise returns `v` unchanged. -/
def validate_employee_number (v : Int) : Except String Int :=
  if v ≤ 0 then Except.error "Employee number must be positive."
  else if ¬ (1000 ≤ v ∧ v ≤ 9999) then
    Except.error "Employee number must be exactly 4 digits."
  else Except.ok v

/-- Constructing the validated `Employee` model from raw input: the field
validator runs on `employee_number`; the other fields pass through. -/
def parseEmployee (raw : RawEmployee) : Except String Employee :=
  match validate_employee_number raw.employee_number with
  | Except.error m => Except.error m
  | Except.ok v =>
      Except.ok ⟨raw.first_name, raw.last_name, raw.email, raw.title,
                 raw.role, v, raw.organisation⟩

/-- A row of the `employees` table of `employeeDB.py`: the seven schema
fields plus the integer primary key `id`. -/
structure EmployeeRow where
  id : Nat
  first_name : String
  last_name : String
  title : String
  organisation : String
  employee_number : Int
  role : String
  email : String
  deriving DecidableEq

/-- An HTTP error response as raised by `HTTPException` in `main.py`. -/
structure HTTPError where
  status_code : Nat
  detail : String
  deriving DecidableEq

/-- The database state: the stored rows of the `employees` table and the
next value of the auto-incremented primary key. -/
structure DB where
  rows : List EmployeeRow
  nextId : Nat
  deriving DecidableEq

/-- The empty store, before any request. -/
def emptyDB : DB := ⟨[], 1⟩

/-- `db.query(EmployeeDB).get(id)`: look up a row by primary key. -/
def getById (db : DB) (id : Nat) : Option EmployeeRow :=
  db.rows.find? (fun r => r.id == id)

/-- The storage-level condition under which the commit in
`employee_create` raises `IntegrityError`: a stored row already holds
the new record's `email` or `employee_number` (both columns are
`unique=True` in `employeeDB.py`). -/
def hasConflict (db : DB) (e : Employee) : Bool :=
  db.rows.any (fun r => r.email == e.email ||
    r.employee_number == e.employee_number)

/-- The 400 detail string of `employee_create`. -/
def duplicateDetail : String :=
  "Employee already exists or your email is incorrect (example@email.com)"

/-- The 404 detail string shared by update, delete and get-by-id. -/
def notFoundDetail : String := "Employee not found"

/-- Success body of POST. -/
def createdMsg : String := "New employee has been created successfully."

/-- Success body of PUT. -/
def updatedMsg : String := "New employee has been updated successfully."

/-- Success body of DELETE. -/
def deletedMsg : String := "Employee has been deleted successfully."

/-- The `EmployeeDB(...)` construction in `employee_create`: a fresh row
holding the seven validated fields and the generated primary key. -/
def rowOfEmployee (e : Employee) (id : Nat) : EmployeeRow :=
  ⟨id, e.first_name, e.last_name, e.title, e.organisation,
   e.employee_number, e.role, e.email⟩

/-- `employee_create` from `main.py`: build the row, add and commit; on
`IntegrityError` roll back (database unchanged) and raise 400, otherwise
append the row, advance the key counter and return the success message. -/
def employee_create (e : Employee) (db : DB) :
    Except HTTPError String × DB :=
  if hasConflict db e then
    (Except.error ⟨400, duplicateDetail⟩, db)
  else
    (Except.ok createdMsg,
     ⟨db.rows ++ [rowOfEmployee e db.nextId], db.nextId + 1⟩)

/-- The full POST pipeline: Pydantic validation of the body, then the
create handler. A validation failure is reported before any persistence
step runs, so the database is returned unchanged. -/
def postEmployee (raw : RawEmployee) (db : DB) :
    Except HTTPError String × DB :=
  match parseEmployee raw with
  | Except.error m => (Except.error ⟨422, m⟩, db)
  | Except.ok e => employee_create e db

/-- The field assignments of `employee_update` in `main.py`: only
`first_name` and `last_name` are overwritten; the other five fields of
the fetched row are left as stored. -/
def updateRow (e : Employee) (r : EmployeeRow) : EmployeeRow :=
  { r with first_name := e.first_name, last_name := e.last_name }

/-- `employee_update` from `main.py`: 404 when the id is absent;
otherwise mutate the fetched row (only the two name fields) and commit. -/
def employee_update (id : Nat) (e : Employee) (db : DB) :
    Except HTTPError String × DB :=
  match getById db id with
  | none => (Except.error ⟨404, notFoundDetail⟩, db)
  | some _ =>
      (Except.ok updatedMsg,
       ⟨db.rows.map (fun r => if r.id == id then updateRow e r else r),
        db.nextId⟩)

/-- `employee_delete` from `main.py`: 404 when the id is absent;
otherwise remove the row with that primary key and commit. -/
def employee_delete (id : Nat) (db : DB) :
    Except HTTPError String × DB :=
  match getById db id with
  | none => (Except.error ⟨404, notFoundDetail⟩, db)
  | some _ =>
      (Except.ok deletedMsg,
       ⟨db.rows.filter (fun r => !(r.id == id)), db.nextId⟩)

/-- Serialization of a stored row through `response_model = Employee` on
the by-id GET route: exactly the seven schema fields survive; the
primary key is not part of the schema and is dropped. -/
def toSchema (r : EmployeeRow) : Employee :=
  ⟨r.first_name, r.last_name, r.email, r.title, r.role,
   r.employee_number, r.organisation⟩

/-- The by-id `employee_details` from `main.py`: 404 when the id is
absent; otherwise the row, serialized through the `Employee` schema.
The handler performs no write, so the database passes through. -/
def employee_details (id : Nat) (db : DB) :
    Except HTTPError Employee × DB :=
  match getById db id with
  | none => (Except.error ⟨404, notFoundDetail⟩, db)
  | some r => (Except.ok (toSchema r), db)

/-- A client request that can change the store. -/
inductive Op where
  | create (e : Employee)
  | update (id : Nat) (e : Employee)
  | del (id : Nat)

/-- The database after one request (the HTTP response is discarded). -/
def applyOp (db : DB) : Op → DB
  | Op.create e => (employee_create e db).2
  | Op.update id e => (employee_update id e db).2
  | Op.del id => (employee_delete id db).2

/-- The database after a sequence of requests. -/
def runOps (db : DB) (ops : List Op) : DB := ops.foldl applyOp db

/-- No two stored rows share an email. -/
def uniqueEmails (db : DB) : Prop :=
  db.rows.Pairwise (fun a b => a.email ≠ b.email)

/-- No two stored rows share an employee number. -/
def uniqueNumbers (db : DB) : Prop :=
  db.rows.Pairwise (fun a b => a.employee_number ≠ b.employee_number)

/-- No two stored rows share a primary key. -/
def uniqueIds (db : DB) : Prop :=
  db.rows.Pairwise (fun a b => a.id ≠ b.id)

/-- Every stored primary key is below the generator counter. -/
def freshIds (db : DB) : Prop :=
  ∀ r ∈ db.rows, r.id < db.nextId

/-- The storage invariant: both unique constraints, primary-key
uniqueness, and freshness of the key counter. -/
def Inv (db : DB) : Prop :=
  uniqueEmails db ∧ uniqueNumbers db ∧ uniqueIds db ∧ freshIds db

/-! ### Helper lemmas -/

/-- When no `IntegrityError` fires, no stored row holds the new email or
the new employee number. -/
theorem hasConflict_false (db : DB) (e : Employee)
    (h : hasConflict db e = false) :
    ∀ r ∈ db.rows, r.email ≠ e.email ∧
      r.employee_number ≠ e.employee_number := by
  intro r hr
  have hx := List.any_eq_false.mp h r hr
  simp only [Bool.or_eq_true, beq_iff_eq, not_or] at hx
  exact hx

/-- A stored row matching the new email or number makes the commit raise
`IntegrityError`. -/
theorem hasConflict_true_of_mem (db : DB) (e : Employee) (r : EmployeeRow)
    (hr : r ∈ db.rows)
    (h : r.email = e.email ∨ r.employee_number = e.employee_number) :
    hasConflict db e = true :=
  List.any_eq_true.mpr ⟨r, hr, by
    simp only [Bool.or_eq_true, beq_iff_eq]
    exact h⟩

/-- In a list that is pairwise distinct under a key, exactly one element
carries the key of any given member. -/
theorem countP_eq_one_of_pairwise {α β : Type} [BEq β] [LawfulBEq β]
    (key : α → β) :
    ∀ l : List α, l.Pairwise (fun a b => key a ≠ key b) →
      ∀ r ∈ l, l.countP (fun x => key x == key r) = 1 := by
  intro l
  induction l with
  | nil => intro _ r hr; cases hr
  | cons a t ih =>
    intro hP r hr
    rcases List.pairwise_cons.mp hP with ⟨ha, ht⟩
    rw [List.countP_cons]
    rcases List.mem_cons.mp hr with rfl | hmem
    · have h0 : t.countP (fun x => key x == key r) = 0 :=
        List.countP_eq_zero.mpr (fun x hx => by
          simp only [beq_iff_eq]
          exact fun hEq => ha x hx hEq.symm)
      simp [h0]
    · have hne : key a ≠ key r := ha r hmem
      have h1 := ih ht r hmem
      simp [h1, hne]

/-- Removing the elements satisfying a predicate shortens a list by
exactly the number of elements that satisfied it. -/
theorem length_filter_not_add {α : Type} (p : α → Bool) (l : List α) :
    (l.filter (fun a => !(p a))).length + l.countP p = l.length := by
  induction l with
  | nil => rfl
  | cons a t ih =>
    cases h : p a <;> simp [List.filter_cons, List.countP_cons, h] <;> omega

/-! ### Preservation of the storage invariant -/

/-- `employee_create` preserves the storage invariant: either the commit
conflicts and rolls back, or the appended row is fresh in email, number
and primary key. -/
theorem inv_create (e : Employee) (db : DB) (h : Inv db) :
    Inv (employee_create e db).2 := by
  obtain ⟨hE, hN, hI, hF⟩ := h
  by_cases hc : hasConflict db e = true
  · unfold employee_create
    rw [if_pos hc]
    exact ⟨hE, hN, hI, hF⟩
  · rw [Bool.not_eq_true] at hc
    have hno := hasConflict_false db e hc
    unfold employee_create
    rw [if_neg (by simp [hc])]
    refine ⟨?_, ?_, ?_, ?_⟩
    · exact List.pairwise_append.mpr ⟨hE, List.pairwise_singleton _ _,
        fun a ha b hb => by
          rw [List.mem_singleton] at hb
          subst hb
          exact (hno a ha).1⟩
    · exact List.pairwise_append.mpr ⟨hN, List.pairwise_singleton _ _,
        fun a ha b hb => by
          rw [List.mem_singleton] at hb
          subst hb
          exact (hno a ha).2⟩
    · exact List.pairwise_append.mpr ⟨hI, List.pairwise_singleton _ _,
        fun a ha b hb => by
          rw [List.mem_singleton] at hb
          subst hb
          exact Nat.ne_of_lt (hF a ha)⟩
    · intro r hr
      rcases List.mem_append.mp hr with h1 | h2
      · exact Nat.lt_succ_of_lt (hF r h1)
      · rw [List.mem_singleton] at h2
        subst h2
        exact Nat.lt_succ_self _

/-- `employee_update` preserves the storage invariant: the two
overwritten name fields take no part in any uniqueness constraint. -/
theorem inv_update (id : Nat) (e : Employee) (db : DB) (h : Inv db) :
    Inv (employee_update id e db).2 := by
  obtain ⟨hE, hN, hI, hF⟩ := h
  unfold employee_update
  cases hg : getById db id with
  | none => exact ⟨hE, hN, hI, hF⟩
  | some r =>
    refine ⟨?_, ?_, ?_, ?_⟩
    · exact List.Pairwise.map _ (fun a b hab => by
        split <;> split <;> exact hab) hE
    · exact List.Pairwise.map _ (fun a b hab => by
        split <;> split <;> exact hab) hN
    · exact List.Pairwise.map _ (fun a b hab => by
        split <;> split <;> exact hab) hI
    · intro x hx
      rcases List.mem_map.mp hx with ⟨r2, hr2, rfl⟩
      have hid : (if r2.id == id then updateRow e r2 else r2).id = r2.id := by
        split <;> rfl
      rw [hid]
      exact hF r2 hr2

/-- `employee_delete` preserves the storage invariant: the surviving
rows are a sublist of the stored rows. -/
theorem inv_delete (id : Nat) (db : DB) (h : Inv db) :
    Inv (employee_delete id db).2 := by
  obtain ⟨hE, hN, hI, hF⟩ := h
  unfold employee_delete
  cases hg : getById db id with
  | none => exact ⟨hE, hN, hI, hF⟩
  | some r =>
    exact ⟨List.Pairwise.filter _ hE, List.Pairwise.filter _ hN,
      List.Pairwise.filter _ hI,
      fun x hx => hF x (List.mem_filter.mp hx).1⟩

/-- Every single request preserves the storage invariant. -/
theorem inv_applyOp (db : DB) (op : Op) (h : Inv db) :
    Inv (applyOp db op) := by
  cases op with
  | create e => exact inv_create e db h
  | update id e => exact inv_update id e db h
  | del id => exact inv_delete id db h

/-- Every request sequence preserves the storage invariant. -/
theorem inv_runOps (ops : List Op) (db : DB) (h : Inv db) :
    Inv (runOps db ops) := by
  induction ops generalizing db with
  | nil => exact h
  | cons op t ih => exact ih (applyOp db op) (inv_applyOp db op h)

/-- The empty store satisfies the storage invariant. -/
theorem inv_empty : Inv emptyDB :=
  ⟨List.Pairwise.nil, List.Pairwise.nil, List.Pairwise.nil,
   fun _ hr => nomatch hr⟩

/-- The stored row serializes back to exactly the employee it was
created from. -/
theorem toSchema_rowOfEmployee (e : Employee) (id : Nat) :
    toSchema (rowOfEmployee e id) = e := rfl

/-! ### Concrete scenario data -/

/-- The example record of the spec, as a stored row with primary key 1. -/
def rowJane : EmployeeRow :=
  ⟨1, "Jane", "Doe", "Engineer", "Acme", 1234, "Dev", "jane@example.com"⟩

/-- A one-row store holding `rowJane`, with the key counter at 2. -/
def dbJane : DB := ⟨[rowJane], 2⟩

/-- The example employee input of the spec scenario. -/
def inputJane : Employee :=
  ⟨"Jane", "Doe", "jane@example.com", "Engineer", "Dev", 1234, "Acme"⟩

/-- A second, everywhere-different employee input. -/
def inputJohn : Employee :=
  ⟨"John", "Roe", "john@example.com", "Clerk", "Ops", 4321, "Globex"⟩

/-- An input that reuses Jane's email with fresh values elsewhere. -/
def inputDupJane : Employee :=
  ⟨"Janet", "Poe", "jane@example.com", "Clerk", "Ops", 4321, "Initech"⟩

/-- An update payload that supplies a new value for every field. -/
def inputJanet : Employee :=
  ⟨"Janet", "Smith", "janet@new.example", "Manager", "Admin", 5678, "Globex"⟩

/-! ### The claims -/

/-- Claim C1: on a store whose rows satisfy the unique constraints, a
create whose email or employee number collides with a stored row fails
with the HTTP 400 duplicate error, leaves the store exactly as it was
(full rollback, no partial row), and exactly one stored row carries the
colliding email (respectively employee number). -/
theorem create_conflict_rolls_back (db : DB) (e : Employee)
    (hE : uniqueEmails db) (hN : uniqueNumbers db)
    (hC : ∃ r ∈ db.rows,
      r.email = e.email ∨ r.employee_number = e.employee_number) :
    (employee_create e db).1 = Except.error ⟨400, duplicateDetail⟩ ∧
    (employee_create e db).2 = db ∧
    (∀ r ∈ db.rows, r.email = e.email →
      db.rows.countP (fun x => x.email == e.email) = 1) ∧
    (∀ r ∈ db.rows, r.employee_number = e.employee_number →
      db.rows.countP
        (fun x => x.employee_number == e.employee_number) = 1) := by
  obtain ⟨r0, hr0, hor⟩ := hC
  have hc : hasConflict db e = true := hasConflict_true_of_mem db e r0 hr0 hor
  unfold employee_create
  rw [if_pos hc]
  refine ⟨rfl, rfl, ?_, ?_⟩
  · intro r hr hre
    have h1 := countP_eq_one_of_pairwise
      (fun x : EmployeeRow => x.email) db.rows hE r hr
    simpa [hre] using h1
  · intro r hr hrn
    have h1 := countP_eq_one_of_pairwise
      (fun x : EmployeeRow => x.employee_number) db.rows hN r hr
    simpa [hrn] using h1

/-- Witness for claim C1: creating `inputDupJane`, which reuses Jane's
email, against the one-row store `dbJane`. -/
theorem create_conflict_rolls_back_witness :
    (employee_create inputDupJane dbJane).1 =
      Except.error ⟨400, duplicateDetail⟩ ∧
    (employee_create inputDupJane dbJane).2 = dbJane ∧
    (∀ r ∈ dbJane.rows, r.email = inputDupJane.email →
      dbJane.rows.countP (fun x => x.email == inputDupJane.email) = 1) ∧
    (∀ r ∈ dbJane.rows, r.employee_number = inputDupJane.employee_number →
      dbJane.rows.countP
        (fun x => x.employee_number == inputDupJane.employee_number) = 1) :=
  create_conflict_rolls_back dbJane inputDupJane
    (List.pairwise_singleton _ _) (List.pairwise_singleton _ _)
    ⟨rowJane, by simp [dbJane], Or.inl rfl⟩

/-- Claim C2: the field validator accepts `employee_number` exactly on
the inclusive range 1000–9999; non-positive values fail with the
"must be positive" message, positive out-of-range values fail with the
"exactly 4 digits" message, and a failing POST body leaves the store
untouched (rejection happens before any persistence). -/
theorem validate_employee_number_spec (v : Int) :
    (validate_employee_number v = Except.ok v ↔ 1000 ≤ v ∧ v ≤ 9999) ∧
    (v ≤ 0 → validate_employee_number v =
      Except.error "Employee number must be positive.") ∧
    (0 < v → ¬ (1000 ≤ v ∧ v ≤ 9999) → validate_employee_number v =
      Except.error "Employee number must be exactly 4 digits.") ∧
    (∀ raw : RawEmployee, ∀ db : DB, raw.employee_number = v →
      ¬ (1000 ≤ v ∧ v ≤ 9999) →
      (postEmployee raw db).2 = db ∧
        ∃ m, (postEmployee raw db).1 = Except.error ⟨422, m⟩) := by
  refine ⟨⟨?_, ?_⟩, ?_, ?_, ?_⟩
  · intro h
    by_cases h1 : v ≤ 0
    · simp [validate_employee_number, h1] at h
    · by_cases h2 : 1000 ≤ v ∧ v ≤ 9999
      · exact h2
      · simp [validate_employee_number, h1, h2] at h
  · intro h2
    have h1 : ¬ v ≤ 0 := by omega
    simp [validate_employee_number, h1, h2]
  · intro h
    unfold validate_employee_number
    rw [if_pos h]
  · intro h0 h2
    unfold validate_employee_number
    rw [if_neg (by omega), if_pos h2]
  · intro raw db hv h2
    unfold postEmployee parseEmployee
    rw [hv]
    by_cases h1 : v ≤ 0
    · unfold validate_employee_number
      rw [if_pos h1]
      exact ⟨rfl, _, rfl⟩
    · unfold validate_employee_number
      rw [if_neg h1, if_pos h2]
      exact ⟨rfl, _, rfl⟩

/-- Witness for claim C2: 999 is positive but not 4 digits, and is
rejected with the "exactly 4 digits" message. -/
theorem validate_employee_number_spec_witness :
    validate_employee_number 999 =
      Except.error "Employee number must be exactly 4 digits." :=
  (validate_employee_number_spec 999).2.2.1 (by decide) (by decide)

/-- Claim C3 (code bug, evaluated at the failing input): updating the
stored Jane record with a payload that supplies a new value for all
seven fields succeeds, yet the stored row keeps the old email, title,
role, employee number and organisation — only the two name fields
change, contradicting the all-fields update the spec intends. -/
theorem update_overwrites_only_names :
    (employee_update 1 inputJanet dbJane).1 = Except.ok updatedMsg ∧
    (employee_update 1 inputJanet dbJane).2.rows =
      [⟨1, "Janet", "Smith", "Engineer", "Acme", 1234, "Dev",
        "jane@example.com"⟩] := by
  exact ⟨rfl, rfl⟩

/-- Claim C4 (counterexample): the create response is the fixed success
message — two creates of different records, stored under different
generated identifiers, return identical responses, so the response
cannot carry the stored representation or its identifier. -/
theorem create_returns_fixed_message :
    (employee_create inputJane emptyDB).1 = Except.ok createdMsg ∧
    (employee_create inputJohn ⟨[], 7⟩).1 =
      (employee_create inputJane emptyDB).1 ∧
    inputJane ≠ inputJohn ∧ (7 : Nat) ≠ emptyDB.nextId := by
  exact ⟨rfl, rfl, by decide, by decide⟩

/-- Claim C4 (amended): on a conflict-free store, create succeeds with
the fixed success message and appends exactly one new row that carries
all seven input fields under the generated primary key `db.nextId`,
advancing the key counter. -/
theorem create_inserts_row (db : DB) (e : Employee)
    (h : hasConflict db e = false) :
    (employee_create e db).1 = Except.ok createdMsg ∧
    (employee_create e db).2.rows =
      db.rows ++ [rowOfEmployee e db.nextId] ∧
    (employee_create e db).2.nextId = db.nextId + 1 ∧
    (rowOfEmployee e db.nextId).id = db.nextId ∧
    toSchema (rowOfEmployee e db.nextId) = e := by
  unfold employee_create
  rw [if_neg (by simp [h])]
  exact ⟨rfl, rfl, rfl, rfl, toSchema_rowOfEmployee e db.nextId⟩

/-- Witness for the amended claim C4: creating Jane in the empty store. -/
theorem create_inserts_row_witness :
    (employee_create inputJane emptyDB).1 = Except.ok createdMsg ∧
    (employee_create inputJane emptyDB).2.rows =
      emptyDB.rows ++ [rowOfEmployee inputJane emptyDB.nextId] ∧
    (employee_create inputJane emptyDB).2.nextId = emptyDB.nextId + 1 ∧
    (rowOfEmployee inputJane emptyDB.nextId).id = emptyDB.nextId ∧
    toSchema (rowOfEmployee inputJane emptyDB.nextId) = inputJane :=
  create_inserts_row emptyDB inputJane (by decide)

/-- Claim C5: on an identifier with no stored row, get-by-id, update and
delete all return exactly the HTTP 404 not-found error (hence no 5xx)
and return the store unchanged. -/
theorem missing_id_not_found (db : DB) (id : Nat) (e : Employee)
    (h : getById db id = none) :
    employee_details id db = (Except.error ⟨404, notFoundDetail⟩, db) ∧
    employee_update id e db = (Except.error ⟨404, notFoundDetail⟩, db) ∧
    employee_delete id db = (Except.error ⟨404, notFoundDetail⟩, db) := by
  unfold employee_details employee_update employee_delete
  rw [h]
  exact ⟨rfl, rfl, rfl⟩

/-- Witness for claim C5: identifier 1 against the empty store. -/
theorem missing_id_not_found_witness :
    employee_details 1 emptyDB =
      (Except.error ⟨404, notFoundDetail⟩, emptyDB) ∧
    employee_update 1 inputJane emptyDB =
      (Except.error ⟨404, notFoundDetail⟩, emptyDB) ∧
    employee_delete 1 emptyDB =
      (Except.error ⟨404, notFoundDetail⟩, emptyDB) :=
  missing_id_not_found emptyDB 1 inputJane rfl

/-- Claim C6: after a conflict-free create, get-by-id at the generated
identifier returns exactly the employee that was supplied (the stored
row, serialized through the schema, equals the input). -/
theorem create_then_get_roundtrip (db : DB) (e : Employee)
    (hc : hasConflict db e = false)
    (hf : ∀ r ∈ db.rows, r.id ≠ db.nextId) :
    (employee_details db.nextId (employee_create e db).2).1 =
      Except.ok e := by
  unfold employee_create
  rw [if_neg (by simp [hc])]
  unfold employee_details getById
  dsimp only
  have h1 : List.find? (fun r => r.id == db.nextId) db.rows = none :=
    List.find?_eq_none.mpr (fun x hx => by
      simpa using hf x hx)
  rw [List.find?_append, h1]
  simp [List.find?, rowOfEmployee]
  rfl

/-- Witness for claim C6: creating Jane in the empty store and reading
identifier 1 back. -/
theorem create_then_get_roundtrip_witness :
    (employee_details emptyDB.nextId
      (employee_create inputJane emptyDB).2).1 = Except.ok inputJane :=
  create_then_get_roundtrip emptyDB inputJane (by decide)
    (fun _ hr => nomatch hr)

/-- Claim C7: deleting a stored identifier succeeds, and a subsequent
get-by-id on the same identifier returns the HTTP 404 not-found error. -/
theorem delete_then_get_not_found (db : DB) (id : Nat) (r : EmployeeRow)
    (h : getById db id = some r) :
    (employee_delete id db).1 = Except.ok deletedMsg ∧
    (employee_details id (employee_delete id db).2).1 =
      Except.error ⟨404, notFoundDetail⟩ := by
  unfold employee_delete
  rw [h]
  refine ⟨rfl, ?_⟩
  unfold employee_details getById
  dsimp only
  have h1 : List.find? (fun x => x.id == id)
      (db.rows.filter (fun x => !(x.id == id))) = none :=
    List.find?_eq_none.mpr (fun x hx => by
      simpa using (List.mem_filter.mp hx).2)
  rw [h1]

/-- Witness for claim C7: deleting identifier 1 from the one-row store
and reading it back. -/
theorem delete_then_get_not_found_witness :
    (employee_delete 1 dbJane).1 = Except.ok deletedMsg ∧
    (employee_details 1 (employee_delete 1 dbJane).2).1 =
      Except.error ⟨404, notFoundDetail⟩ :=
  delete_then_get_not_found dbJane 1 rowJane rfl

/-- Claim C8: in every store reachable from the empty store by any
sequence of create, update and delete requests, no two rows share an
email and no two rows share an employee number. -/
theorem reachable_states_unique (ops : List Op) :
    uniqueEmails (runOps emptyDB ops) ∧
      uniqueNumbers (runOps emptyDB ops) :=
  ⟨(inv_runOps ops emptyDB inv_empty).1,
   (inv_runOps ops emptyDB inv_empty).2.1⟩

/-- Claim C9: on a store with distinct primary keys, deleting a stored
identifier removes exactly that row — a row survives iff it was stored
and has a different id — and the row count drops by exactly one. -/
theorem delete_frame (db : DB) (id : Nat) (r : EmployeeRow)
    (hI : uniqueIds db) (h : getById db id = some r) :
    (∀ x, x ∈ (employee_delete id db).2.rows ↔
      x ∈ db.rows ∧ x.id ≠ id) ∧
    (employee_delete id db).2.rows.length + 1 = db.rows.length := by
  unfold employee_delete
  rw [h]
  dsimp only
  constructor
  · intro x
    rw [List.mem_filter]
    constructor
    · rintro ⟨hx, hp⟩
      exact ⟨hx, by simpa using hp⟩
    · rintro ⟨hx, hp⟩
      exact ⟨hx, by simpa using hp⟩
  · have hr : r ∈ db.rows := List.mem_of_find?_eq_some h
    have hrid : r.id = id := by
      have h2 := List.find?_some h
      simpa using h2
    have hcount : db.rows.countP (fun x => x.id == id) = 1 := by
      have h3 := countP_eq_one_of_pairwise
        (fun x : EmployeeRow => x.id) db.rows hI r hr
      simpa [hrid] using h3
    have h4 := length_filter_not_add
      (fun x : EmployeeRow => x.id == id) db.rows
    rw [hcount] at h4
    exact h4

/-- Witness for claim C9: deleting identifier 1 from the one-row store. -/
theorem delete_frame_witness :
    (∀ x, x ∈ (employee_delete 1 dbJane).2.rows ↔
      x ∈ dbJane.rows ∧ x.id ≠ 1) ∧
    (employee_delete 1 dbJane).2.rows.length + 1 =
      dbJane.rows.length :=
  delete_frame dbJane 1 rowJane (List.pairwise_singleton _ _) rfl

/-- Claim C10: the successful by-id GET response is the stored row
serialized through the `Employee` schema — it carries exactly the seven
schema fields, each equal to the stored column, and is independent of
the primary key (two rows differing only in id serialize identically),
so the response never includes the storage-generated id. -/
theorem get_by_id_serializes_schema (db : DB) (id : Nat) (r : EmployeeRow)
    (h : getById db id = some r) :
    (employee_details id db).1 = Except.ok (toSchema r) ∧
    (toSchema r).first_name = r.first_name ∧
    (toSchema r).last_name = r.last_name ∧
    (toSchema r).email = r.email ∧
    (toSchema r).title = r.title ∧
    (toSchema r).role = r.role ∧
    (toSchema r).employee_number = r.employee_number ∧
    (toSchema r).organisation = r.organisation ∧
    (∀ n : Nat, toSchema { r with id := n } = toSchema r) := by
  unfold employee_details
  rw [h]
  exact ⟨rfl, rfl, rfl, rfl, rfl, rfl, rfl, rfl, fun _ => rfl⟩

/-- Witness for claim C10: reading identifier 1 from the one-row store. -/
theorem get_by_id_serializes_schema_witness :
    (employee_details 1 dbJane).1 = Except.ok (toSchema rowJane) ∧
    (toSchema rowJane).first_name = rowJane.first_name ∧
    (toSchema rowJane).last_name = rowJane.last_name ∧
    (toSchema rowJane).email = rowJane.email ∧
    (toSchema rowJane).title = rowJane.title ∧
    (toSchema rowJane).role = rowJane.role ∧
    (toSchema rowJane).employee_number = rowJane.employee_number ∧
    (toSchema rowJane).organisation = rowJane.organisation ∧
    (∀ n : Nat, toSchema { rowJane with id := n } = toSchema rowJane) :=
  get_by_id_serializes_schema dbJane 1 rowJane rfl

end EmployeeService
